import Mathlib

/-!
Shallow embedding of the azooKey-Windows client composition engine
(`crates/client/src/engine/composition.rs` and
`crates/client/src/engine/ipc_service.rs`) and proofs about it.

Rust `String`s are modelled as lists of characters, machine integers
(`i32`) as `Int`, and fallible operations as `Except`-valued functions.
The host framework (TSF) and the two out-of-process services are modelled
by an environment of responder functions; the interpreter threads an
explicit call trace so that statements about which calls are issued can
be made.
-/

/-- Rust `String`, modelled as a list of characters so that
`chars().count()` is `List.length`. -/
abbrev Str := List Char

/-- Input mode of the IME (`engine/input_mode.rs`): Kana (Japanese) or
Latin (direct). -/
inductive InputMode where
  | Kana
  | Latin
deriving DecidableEq, Repr

/-- CompositionRecord state (`CompositionState` in `composition.rs`). -/
inductive CompositionState where
  | None
  | Composing
  | Previewing
  | Selecting
deriving DecidableEq, Repr

/-- Candidate set returned by the conversion backend (`Candidates` in
`ipc_service.rs`): parallel lists of candidate texts, sub texts and
corresponding counts, plus one shared hiragana string. -/
structure Candidates where
  texts : List Str
  sub_texts : List Str
  hiragana : Str
  corresponding_count : List Int
deriving DecidableEq, Repr

instance : Inhabited Candidates := ⟨⟨[], [], [], []⟩⟩

/-- The composition record (`CompositionRecord` in `composition.rs`).  The
`tip_composition` field of the source is an opaque host-side token
(`ITfComposition`) owned by the host framework and is not part of the
modelled record. -/
structure CompositionRecord where
  preview : Str
  suffix : Str
  raw_input : Str
  raw_hiragana : Str
  corresponding_count : Int
  selection_index : Int
  candidates : Candidates
  state : CompositionState
deriving DecidableEq, Repr

instance : Inhabited CompositionRecord :=
  ⟨⟨[], [], [], [], 0, 0, default, .None⟩⟩

/-- Navigation directions of the user-action decoder. -/
inductive Navigation where
  | Left
  | Right
  | Up
  | Down
deriving DecidableEq, Repr

/-- The five function keys used for forced-form conversion (`Function`
in `engine/user_action.rs`). -/
inductive FunctionKey where
  | Six
  | Seven
  | Eight
  | Nine
  | Ten
deriving DecidableEq, Repr

/-- Logical user actions produced by the decoder
(`engine/user_action.rs`).  `Input` carries the produced character and
`Number` the produced digit character (the source calls `.to_string()`
on both). -/
inductive UserAction where
  | Input (c : Char)
  | Number (d : Char)
  | Backspace
  | Enter
  | Escape
  | Space
  | Tab
  | Navigation (d : Navigation)
  | Function (k : FunctionKey)
  | ToggleInputMode
  | Unhandled
deriving DecidableEq, Repr

/-- Direction argument of the SetSelection client action
(`SetSelectionType` in `engine/client_action.rs`). -/
inductive SetSelectionType where
  | Up
  | Down
  | Number (n : Int)
deriving DecidableEq, Repr

/-- Forced-form conversion kinds (`SetTextType` in
`engine/client_action.rs`). -/
inductive SetTextType where
  | Hiragana
  | Katakana
  | HalfKatakana
  | FullLatin
  | HalfLatin
deriving DecidableEq, Repr

/-- Client actions executed by the action interpreter (`ClientAction` in
`engine/client_action.rs`). -/
inductive ClientAction where
  | StartComposition
  | EndComposition
  | AppendText (t : Str)
  | RemoveText
  | MoveCursor (offset : Int)
  | SetIMEMode (m : InputMode)
  | SetSelection (s : SetSelectionType)
  | ShrinkText (t : Str)
  | SetTextWithType (k : SetTextType)
deriving DecidableEq, Repr

/-- Modelled from the spec: `to_fullwidth` of `engine/full_width.rs` is
missing from the sources; per the spec it is a pure character-wise map
sending ASCII code points to their fullwidth forms, with a flag that
preserves ASCII punctuation.  No claim depends on the exact table. -/
def fullwidthChar (preserve_ascii_punct : Bool) (c : Char) : Char :=
  if 0x21 ≤ c.toNat ∧ c.toNat ≤ 0x7e ∧ (preserve_ascii_punct = false ∨ c.isAlphanum) then
    Char.ofNat (c.toNat + 0xFEE0)
  else
    c

/-- Modelled from the spec: fullwidth conversion, character-wise. -/
def to_fullwidth (s : Str) (preserve_ascii_punct : Bool) : Str :=
  s.map (fullwidthChar preserve_ascii_punct)

/-- Modelled from the spec: halfwidth conversion, character-wise inverse
of the fullwidth map on the fullwidth ASCII block. -/
def to_halfwidth (s : Str) : Str :=
  s.map (fun c =>
    if 0xff01 ≤ c.toNat ∧ c.toNat ≤ 0xff5e then Char.ofNat (c.toNat - 0xFEE0) else c)

/-- Modelled from the spec: hiragana-to-katakana conversion
(`engine/text_util.rs` is missing from the sources), character-wise
shift of the hiragana block.  No claim depends on the exact table. -/
def to_katakana (s : Str) : Str :=
  s.map (fun c =>
    if 0x3041 ≤ c.toNat ∧ c.toNat ≤ 0x3096 then Char.ofNat (c.toNat + 0x60) else c)

/-- Modelled from the spec: half-katakana conversion, a pure
character-wise map whose table is not given in the sources; no claim
depends on it, so the map is left as the identity on each character. -/
def to_half_katakana (s : Str) : Str :=
  s.map (fun c => c)

/-- Mode-dependent shaping applied by the interpreter before sending
text to the backend (`match mode { Kana => to_fullwidth(text, false),
Latin => text }` in `composition.rs`). -/
def shaped (mode : InputMode) (t : Str) : Str :=
  match mode with
  | .Kana => to_fullwidth t false
  | .Latin => t

/-- The transition table of `process_key` (`composition.rs` lines
155-361): given the current composition state, the input mode and the
decoded user action, produce `some (transition, actions)`, or `none`
where the source returns `Ok(None)` ("not consumed"). -/
def keyTransitions (state : CompositionState) (mode : InputMode)
    (action : UserAction) (composition : CompositionRecord) :
    Option (CompositionState × List ClientAction) :=
  match state with
  | .None =>
    match action with
    | .Input c =>
      if mode = .Kana then
        some (.Composing, [.StartComposition, .AppendText [c]])
      else
        none
    | .Number d =>
      if mode = .Kana then
        some (.Composing, [.StartComposition, .AppendText [d]])
      else
        none
    | .ToggleInputMode =>
      some (.None, [.SetIMEMode (match mode with | .Kana => .Latin | .Latin => .Kana)])
    | _ => none
  | .Composing =>
    match action with
    | .Input c => some (.Composing, [.AppendText [c]])
    | .Number d => some (.Composing, [.AppendText [d]])
    | .Backspace =>
      if composition.preview.length = 1 then
        some (.None, [.RemoveText, .EndComposition])
      else
        some (.Composing, [.RemoveText])
    | .Enter =>
      if composition.suffix.isEmpty then
        some (.None, [.EndComposition])
      else
        some (.Composing, [.ShrinkText []])
    | .Escape => some (.None, [.RemoveText, .EndComposition])
    | .Navigation dir =>
      match dir with
      | .Right => some (.Composing, [.MoveCursor 1])
      | .Left => some (.Composing, [.MoveCursor (-1)])
      | .Up => some (.Previewing, [.SetSelection .Up])
      | .Down => some (.Previewing, [.SetSelection .Down])
    | .ToggleInputMode => some (.None, [.EndComposition, .SetIMEMode .Latin])
    | .Space => some (.Previewing, [.SetSelection .Down])
    | .Tab => some (.Previewing, [.SetSelection .Down])
    | .Function k =>
      match k with
      | .Six => some (.Previewing, [.SetTextWithType .Hiragana])
      | .Seven => some (.Previewing, [.SetTextWithType .Katakana])
      | .Eight => some (.Previewing, [.SetTextWithType .HalfKatakana])
      | .Nine => some (.Previewing, [.SetTextWithType .FullLatin])
      | .Ten => some (.Previewing, [.SetTextWithType .HalfLatin])
    | _ => none
  | .Previewing =>
    match action with
    | .Input c => some (.Composing, [.ShrinkText [c]])
    | .Number d => some (.Composing, [.ShrinkText [d]])
    | .Backspace =>
      if composition.preview.length = 1 then
        some (.None, [.RemoveText, .EndComposition])
      else
        some (.Composing, [.RemoveText])
    | .Enter =>
      if composition.suffix.isEmpty then
        some (.None, [.EndComposition])
      else
        some (.Composing, [.ShrinkText []])
    | .Escape => some (.None, [.RemoveText, .EndComposition])
    | .Navigation dir =>
      match dir with
      | .Right => some (.Composing, [.MoveCursor 1])
      | .Left => some (.Composing, [.MoveCursor (-1)])
      | .Up => some (.Previewing, [.SetSelection .Up])
      | .Down => some (.Previewing, [.SetSelection .Down])
    | .ToggleInputMode => some (.None, [.EndComposition, .SetIMEMode .Latin])
    | .Space => some (.Previewing, [.SetSelection .Down])
    | .Tab => some (.Previewing, [.SetSelection .Down])
    | .Function k =>
      match k with
      | .Six => some (.Previewing, [.SetTextWithType .Hiragana])
      | .Seven => some (.Previewing, [.SetTextWithType .Katakana])
      | .Eight => some (.Previewing, [.SetTextWithType .HalfKatakana])
      | .Nine => some (.Previewing, [.SetTextWithType .FullLatin])
      | .Ten => some (.Previewing, [.SetTextWithType .HalfLatin])
    | _ => none
  | .Selecting => none

/-- `TextServiceFactory::process_key`.  `hasContext` models
`context.is_some()`, `ctrlPressed` models `VK_CONTROL.is_pressed()`, and
`decode` models `UserAction::try_from` (the decoder lives in
`engine/user_action.rs`, which is not among the sources, so it is kept
abstract as a parameter).  The result mirrors the source:
`ok none` for "not consumed", otherwise `ok (some (actions,
transition))`. -/
def process_key (hasContext : Bool) (wparam : Nat) (ctrlPressed : Bool)
    (decode : Nat → Except Unit UserAction)
    (composition : CompositionRecord) (mode : InputMode) :
    Except Unit (Option (List ClientAction × CompositionState)) :=
  match hasContext with
  | false => .ok none
  | true =>
    if wparam = 0x97 then
      .ok (some ([.SetIMEMode .Latin], .None))
    else if wparam = 0x98 then
      .ok (some ([.SetIMEMode .Kana], .None))
    else if ctrlPressed then
      .ok none
    else
      match decode wparam with
      | .error e => .error e
      | .ok action =>
        match keyTransitions composition.state mode action composition with
        | none => .ok none
        | some (transition, actions) => .ok (some (actions, transition))

/-- Errors of the engine, covering the error taxonomy of the source:
absent IPC client (`context("IPC service not available")`), RPC timeout,
gRPC status errors, a missing `composing_text` payload, host-framework
call failures, and an out-of-bounds unchecked index (a Rust panic, made
explicit in this total embedding). -/
inductive IMEError where
  | ipcUnavailable
  | timeout
  | grpc (status : Nat)
  | protocol
  | host (code : Nat)
  | indexOutOfBounds
deriving DecidableEq, Repr

/-- Process-wide IME state fields relevant to the interpreter
(`engine/state.rs` `IMEState`): the input mode and whether an IPC client
handle is installed. -/
structure Globals where
  input_mode : InputMode
  ipcPresent : Bool
deriving DecidableEq, Repr

/-- One call issued by the action interpreter, either to the host
framework or over IPC; the interpreter records the trace of these. -/
inductive Call where
  | start_composition
  | end_composition
  | set_text (p s : Str)
  | shift_start (old new : Str)
  | update_pos
  | update_lang_bar
  | show_window
  | hide_window
  | set_candidates (l : List Str)
  | set_selection (i : Int)
  | clear_text
  | append_text (t : Str)
  | remove_text
  | shrink_text (n : Int)
deriving DecidableEq, Repr

/-- Whether a call is an IPC call (to the conversion backend or the
candidate-window UI) as opposed to a host-framework call. -/
def Call.isIPC : Call → Bool
  | .show_window => true
  | .hide_window => true
  | .set_candidates _ => true
  | .set_selection _ => true
  | .clear_text => true
  | .append_text _ => true
  | .remove_text => true
  | .shrink_text _ => true
  | _ => false

/-- Environment of responders for the host framework and the IPC
services.  Each responder is a function of the global call counter (the
position of the call in the interpreter's trace), so arbitrary
behaviours of the collaborators are expressible.  `cooldownPassed`
models `should_try_ipc_reconnect()` and `reconnectOk` the outcome of the
lazy `IPCService::new()`.  Responders whose results the source discards
(`show_window`, `hide_window`, `clear_text`, `update_lang_bar`, and
`set_candidates`/`set_selection` where called under `let _ =`) need no
entry: their results can never influence the interpreter. -/
structure Env where
  cooldownPassed : Bool
  reconnectOk : Bool
  append_text : Nat → Str → Except IMEError Candidates
  remove_text : Nat → Except IMEError Candidates
  shrink_text : Nat → Int → Except IMEError Candidates
  set_candidates : Nat → List Str → Except IMEError Unit
  set_selection : Nat → Int → Except IMEError Unit
  start_composition : Nat → Except IMEError Unit
  end_composition : Nat → Except IMEError Unit
  set_text : Nat → Str → Str → Except IMEError Unit
  shift_start : Nat → Except IMEError Unit
  update_pos : Nat → Except IMEError Unit

/-- Mutable state threaded through `handle_action`'s loop: the local
copies of the record fields, the (mutable) transition, the process-wide
state, the reconnect-cooldown flag, the call counter and the call
trace. -/
structure InterpState where
  preview : Str
  suffix : Str
  raw_input : Str
  raw_hiragana : Str
  corresponding_count : Int
  candidates : Candidates
  selection_index : Int
  transition : CompositionState
  g : Globals
  cooldownOk : Bool
  ctr : Nat
  trace : List Call
deriving DecidableEq, Repr

/-- Record a call in the trace and advance the call counter. -/
def emit (m : InterpState) (c : Call) : InterpState :=
  { m with ctr := m.ctr + 1, trace := m.trace ++ [c] }

/-- Issue a call whose failure propagates (`?` in the source): record it
and fail with the responder's error if any. -/
def reqCall (m : InterpState) (c : Call) (r : Except IMEError Unit) :
    Except (IMEError × InterpState) InterpState :=
  match r with
  | .ok _ => .ok (emit m c)
  | .error e => .error (e, emit m c)

/-- Issue a candidate-returning backend call whose failure propagates. -/
def candCall (m : InterpState) (c : Call) (r : Except IMEError Candidates) :
    Except (IMEError × InterpState) (Candidates × InterpState) :=
  match r with
  | .ok cands => .ok (cands, emit m c)
  | .error e => .error (e, emit m c)

/-- The `require_ipc!` macro of `handle_action`: if the client is
absent and the reconnect cooldown has passed, attempt `IPCService::new`
once; on success install the client (also in the process-wide state),
on failure record the failure time (modelled by clearing the cooldown
flag).  Fails with `ipcUnavailable` when no client results. -/
def require_ipc (env : Env) (m : InterpState) :
    Except (IMEError × InterpState) InterpState :=
  if m.g.ipcPresent then .ok m
  else if m.cooldownOk then
    if env.reconnectOk then
      .ok { m with g := { m.g with ipcPresent := true } }
    else
      .error (.ipcUnavailable, { m with cooldownOk := false })
  else
    .error (.ipcUnavailable, m)

/-- Indexing a list with a Rust `i32` cast to `usize`
(`xs[i as usize]`): a negative index wraps to a huge `usize`, so it is
out of bounds. -/
def idxGet (l : List Str) (i : Int) : Option Str :=
  if i < 0 then none else l.get? i.toNat

/-- Indexing as `idxGet`, for the `corresponding_count` list. -/
def idxGetI (l : List Int) (i : Int) : Option Int :=
  if i < 0 then none else l.get? i.toNat

/-- Unchecked Rust indexing `xs[i as usize]` in a total embedding: out
of bounds becomes an explicit `indexOutOfBounds` error (a panic in the
source). -/
def uidx (m : InterpState) (l : List Str) (i : Int) :
    Except (IMEError × InterpState) Str :=
  match idxGet l i with
  | some x => .ok x
  | none => .error (.indexOutOfBounds, m)

/-- Unchecked indexing into the corresponding-count list. -/
def uidxI (m : InterpState) (l : List Int) (i : Int) :
    Except (IMEError × InterpState) Int :=
  match idxGetI l i with
  | some x => .ok x
  | none => .error (.indexOutOfBounds, m)

/-- Rust `s.chars().take(i as usize)` for an `i32` count: a negative
count wraps to a huge `usize` and takes the whole string. -/
def takeInt (l : Str) (i : Int) : Str :=
  if i < 0 then l else l.take i.toNat

/-- Rust `s.chars().skip(i as usize)` for an `i32` count: a negative
count wraps to a huge `usize` and skips the whole string. -/
def skipInt (l : Str) (i : Int) : Str :=
  if i < 0 then [] else l.drop i.toNat

/-- The new selection index computed by the `SetSelection` arm of
`handle_action` (`composition.rs` lines 593-597), given the texts list
of the record's candidates. -/
def newSelectionIndex (s : SetSelectionType) (selection_index : Int)
    (texts : List Str) : Int :=
  match s with
  | .Up => max 0 (selection_index - 1)
  | .Down => min ((texts.length : Int) - 1) (selection_index + 1)
  | .Number n => n

/-- Execution of one client action by the interpreter, the body of the
`for action in actions` loop of `TextServiceFactory::handle_action`
(`composition.rs` lines 457-656).  `snapCands` is the candidates list
re-read from the record inside the `SetSelection` arm; since the
write-back has not yet happened, the record still holds the pre-event
snapshot.  `mode` is the input mode read once at entry. -/
def execAction (env : Env) (snapCands : Candidates) (mode : InputMode)
    (m : InterpState) (a : ClientAction) :
    Except (IMEError × InterpState) InterpState :=
  match a with
  | .StartComposition =>
    match reqCall m .start_composition (env.start_composition m.ctr) with
    | .error e => .error e
    | .ok m =>
      match reqCall m .update_pos (env.update_pos m.ctr) with
      | .error e => .error e
      | .ok m =>
        .ok (if m.g.ipcPresent then emit m .show_window else m)
  | .EndComposition =>
    match reqCall m .end_composition (env.end_composition m.ctr) with
    | .error e => .error e
    | .ok m =>
      let m := { m with selection_index := 0, corresponding_count := 0,
                        preview := [], suffix := [], raw_input := [], raw_hiragana := [] }
      let m := if m.g.ipcPresent then emit m .hide_window else m
      let m := if m.g.ipcPresent then emit m (.set_candidates []) else m
      let m := if m.g.ipcPresent then emit m .clear_text else m
      .ok m
  | .AppendText text =>
    let m := { m with raw_input := m.raw_input ++ text }
    let fullwidth_text := shaped mode text
    match require_ipc env m with
    | .ok m =>
      match candCall m (.append_text fullwidth_text) (env.append_text m.ctr fullwidth_text) with
      | .error e => .error e
      | .ok (cands, m) =>
        let m := { m with candidates := cands }
        match uidx m cands.texts m.selection_index with
        | .error e => .error e
        | .ok conv_text =>
          match uidx m cands.sub_texts m.selection_index with
          | .error e => .error e
          | .ok sub_text =>
            let hiragana := cands.hiragana
            match uidxI m cands.corresponding_count m.selection_index with
            | .error e => .error e
            | .ok cc =>
              let m := { m with corresponding_count := cc, preview := conv_text,
                                suffix := sub_text, raw_hiragana := hiragana }
              match reqCall m (.set_text conv_text sub_text)
                  (env.set_text m.ctr conv_text sub_text) with
              | .error e => .error e
              | .ok m =>
                let m := emit m (.set_candidates cands.texts)
                let m := emit m (.set_selection m.selection_index)
                .ok m
    | .error (_, m) =>
      let rh := m.raw_hiragana ++ fullwidth_text
      let m := { m with raw_hiragana := rh, preview := rh, suffix := [],
                        corresponding_count := (rh.length : Int) }
      match reqCall m (.set_text rh []) (env.set_text m.ctr rh []) with
      | .error e => .error e
      | .ok m => .ok m
  | .RemoveText =>
    match require_ipc env m with
    | .ok m =>
      match candCall m .remove_text (env.remove_text m.ctr) with
      | .error e => .error e
      | .ok (cands, m) =>
        let m := { m with candidates := cands }
        let text := (idxGet cands.texts m.selection_index).getD []
        let sub_text := (idxGet cands.sub_texts m.selection_index).getD []
        let hiragana := cands.hiragana
        let cc := (idxGetI cands.corresponding_count m.selection_index).getD 0
        let m := { m with corresponding_count := cc,
                          raw_input := takeInt m.raw_input cc,
                          preview := text, suffix := sub_text, raw_hiragana := hiragana }
        match reqCall m (.set_text text sub_text) (env.set_text m.ctr text sub_text) with
        | .error e => .error e
        | .ok m =>
          let m := emit m (.set_candidates cands.texts)
          let m := emit m (.set_selection m.selection_index)
          .ok m
    | .error (_, m) =>
      let rh := m.raw_hiragana.dropLast
      let m := { m with raw_hiragana := rh,
                        raw_input := m.raw_input.take (m.raw_input.length - 1),
                        preview := rh, suffix := [],
                        corresponding_count := (rh.length : Int) }
      match reqCall m (.set_text rh []) (env.set_text m.ctr rh []) with
      | .error e => .error e
      | .ok m => .ok m
  | .MoveCursor _ => .ok m
  | .SetIMEMode newMode =>
    let m := { m with g := { m.g with input_mode := newMode } }
    let m := emit m .update_lang_bar
    .ok { m with selection_index := 0, corresponding_count := 0,
                 preview := [], suffix := [], raw_input := [], raw_hiragana := [] }
  | .SetSelection selection =>
    let texts := snapCands.texts
    let sub_texts := snapCands.sub_texts
    let si := newSelectionIndex selection m.selection_index texts
    let m := { m with selection_index := si }
    match require_ipc env m with
    | .error e => .error e
    | .ok m =>
      match reqCall m (.set_selection si) (env.set_selection m.ctr si) with
      | .error e => .error e
      | .ok m =>
        match uidx m texts si with
        | .error e => .error e
        | .ok text =>
          match uidx m sub_texts si with
          | .error e => .error e
          | .ok sub_text =>
            let hiragana := snapCands.hiragana
            match uidxI m snapCands.corresponding_count si with
            | .error e => .error e
            | .ok cc =>
              let m := { m with corresponding_count := cc, preview := text,
                                suffix := sub_text, raw_hiragana := hiragana }
              match reqCall m (.set_text text sub_text)
                  (env.set_text m.ctr text sub_text) with
              | .error e => .error e
              | .ok m => .ok m
  | .ShrinkText text =>
    let m := { m with raw_input := skipInt (m.raw_input ++ text) m.corresponding_count }
    match require_ipc env m with
    | .error e => .error e
    | .ok m =>
      match candCall m (.shrink_text m.corresponding_count)
          (env.shrink_text m.ctr m.corresponding_count) with
      | .error e => .error e
      | .ok (_, m) =>
        let shapedText := shaped mode text
        match require_ipc env m with
        | .error e => .error e
        | .ok m =>
          match candCall m (.append_text shapedText) (env.append_text m.ctr shapedText) with
          | .error e => .error e
          | .ok (cands, m) =>
            let m := { m with candidates := cands, selection_index := 0 }
            match uidx m cands.texts 0 with
            | .error e => .error e
            | .ok newText =>
              match uidx m cands.sub_texts 0 with
              | .error e => .error e
              | .ok sub_text =>
                let hiragana := cands.hiragana
                match reqCall m (.shift_start m.preview newText) (env.shift_start m.ctr) with
                | .error e => .error e
                | .ok m =>
                  match uidxI m cands.corresponding_count 0 with
                  | .error e => .error e
                  | .ok cc =>
                    let m := { m with corresponding_count := cc, preview := newText,
                                      suffix := sub_text, raw_hiragana := hiragana }
                    match require_ipc env m with
                    | .error e => .error e
                    | .ok m =>
                      match reqCall m (.set_candidates cands.texts)
                          (env.set_candidates m.ctr cands.texts) with
                      | .error e => .error e
                      | .ok m =>
                        match require_ipc env m with
                        | .error e => .error e
                        | .ok m =>
                          match reqCall m (.set_selection 0) (env.set_selection m.ctr 0) with
                          | .error e => .error e
                          | .ok m =>
                            match reqCall m .update_pos (env.update_pos m.ctr) with
                            | .error e => .error e
                            | .ok m => .ok { m with transition := .Composing }
  | .SetTextWithType set_type =>
    let text :=
      match set_type with
      | .Hiragana => m.raw_hiragana
      | .Katakana => to_katakana m.raw_hiragana
      | .HalfKatakana => to_half_katakana m.raw_hiragana
      | .FullLatin => to_fullwidth m.raw_input true
      | .HalfLatin => to_halfwidth m.raw_input
    match reqCall m (.set_text text []) (env.set_text m.ctr text []) with
    | .error e => .error e
    | .ok m => .ok m

/-- Sequential execution of an action list (the `for` loop of
`handle_action`): the first failure aborts the remainder. -/
def runActions (env : Env) (snapCands : Candidates) (mode : InputMode) :
    List ClientAction → InterpState → Except (IMEError × InterpState) InterpState
  | [], m => .ok m
  | a :: rest, m =>
    match execAction env snapCands mode m a with
    | .error e => .error e
    | .ok m => runActions env snapCands mode rest m

deriving instance DecidableEq for Except

/-- Result of `handle_action`: the returned `Result`, the composition
record after the event, the process-wide state and the call trace. -/
structure HAResult where
  res : Except IMEError Unit
  record : CompositionRecord
  g : Globals
  trace : List Call
deriving DecidableEq, Repr

/-- The local copies of the record fields taken at the top of
`handle_action` (`composition.rs` lines 397-406), together with the
interpreter bookkeeping. -/
def initState (env : Env) (g : Globals) (composition : CompositionRecord)
    (transition : CompositionState) : InterpState :=
  { preview := composition.preview, suffix := composition.suffix,
    raw_input := composition.raw_input, raw_hiragana := composition.raw_hiragana,
    corresponding_count := composition.corresponding_count,
    candidates := composition.candidates,
    selection_index := composition.selection_index,
    transition := transition, g := g, cooldownOk := env.cooldownPassed,
    ctr := 0, trace := [] }

/-- The write-back of the locals into the record at the end of
`handle_action` (`composition.rs` lines 658-668). -/
def writeback (m : InterpState) : CompositionRecord :=
  { preview := m.preview, suffix := m.suffix, raw_input := m.raw_input,
    raw_hiragana := m.raw_hiragana,
    corresponding_count := m.corresponding_count,
    selection_index := m.selection_index, candidates := m.candidates,
    state := m.transition }

/-- `TextServiceFactory::handle_action` (`composition.rs` lines
384-671): snapshot the record and the mode, run the action list on
local copies, and write the locals back into the record only when every
action succeeded; on failure the record keeps its pre-event value while
mutations of the process-wide state persist. -/
def handle_action (env : Env) (g : Globals) (composition : CompositionRecord)
    (actions : List ClientAction) (transition : CompositionState) : HAResult :=
  match runActions env composition.candidates g.input_mode actions
      (initState env g composition transition) with
  | .ok m =>
    { res := .ok (), record := writeback m, g := m.g, trace := m.trace }
  | .error (e, m) =>
    { res := .error e, record := composition, g := m.g, trace := m.trace }

/-- Gross behaviour of one RPC exchange as seen by the blocking caller:
how long the server takes to answer and what it answers (a gRPC status
error or a payload). -/
structure RpcBehavior (α : Type) where
  latency : Nat
  response : Except Nat α
deriving Repr

/-- The per-call timeout of `ipc_service.rs` (`IPC_TIMEOUT`), in
milliseconds. -/
def IPC_TIMEOUT : Nat := 5000

/-- A `block_on` wrapped in `time::timeout(IPC_TIMEOUT, ..)` as in
`IPCService::append_text`: if the server's latency exceeds the timeout
the call fails with `timeout` after `IPC_TIMEOUT` elapsed; otherwise
the caller waits out the latency and gets the response (gRPC status
errors become errors).  The second component is the wall-clock time the
caller was blocked. -/
def block_on_with_timeout (b : RpcBehavior α) : Except IMEError α × Nat :=
  if b.latency > IPC_TIMEOUT then
    (.error .timeout, IPC_TIMEOUT)
  else
    match b.response with
    | .ok r => (.ok r, b.latency)
    | .error s => (.error (.grpc s), b.latency)

/-- A plain `block_on` with no timeout, as in every `IPCService` method
except `append_text`: the caller is blocked for the full latency,
however large, and never observes a `timeout` error. -/
def block_on_plain (b : RpcBehavior α) : Except IMEError α × Nat :=
  (match b.response with
   | .ok r => .ok r
   | .error s => .error (.grpc s), b.latency)

/-- One ranked suggestion in a backend response
(`shared::proto` suggestion shape). -/
structure Suggestion where
  text : Str
  subtext : Str
  corresponding_count : Int
deriving DecidableEq, Repr

/-- The `composing_text` payload of a backend response. -/
structure ComposingText where
  suggestions : List Suggestion
  hiragana : Str
deriving DecidableEq, Repr

/-- Conversion of an optional `composing_text` payload into
`Candidates`, shared by `append_text`, `remove_text` and `shrink_text`
in `ipc_service.rs`; a missing payload is the
`anyhow::bail!("composing_text is None")` branch. -/
def toCandidates : Option ComposingText → Except IMEError Candidates
  | some ct =>
    .ok { texts := ct.suggestions.map (fun s => s.text),
          sub_texts := ct.suggestions.map (fun s => s.subtext),
          hiragana := ct.hiragana,
          corresponding_count := ct.suggestions.map (fun s => s.corresponding_count) }
  | none => .error .protocol

/-- `IPCService::append_text` (`ipc_service.rs` lines 126-169): the one
RPC whose `block_on` is wrapped in `time::timeout(IPC_TIMEOUT, ..)`. -/
def appendTextRPC (b : RpcBehavior (Option ComposingText)) :
    Except IMEError Candidates × Nat :=
  match block_on_with_timeout b with
  | (.ok o, t) => (toCandidates o, t)
  | (.error e, t) => (.error e, t)

/-- `IPCService::remove_text` (`ipc_service.rs` lines 171-204): a plain
`block_on` with no timeout. -/
def removeTextRPC (b : RpcBehavior (Option ComposingText)) :
    Except IMEError Candidates × Nat :=
  match block_on_plain b with
  | (.ok o, t) => (toCandidates o, t)
  | (.error e, t) => (.error e, t)

/-- `IPCService::shrink_text` (`ipc_service.rs` lines 217-250): a plain
`block_on` with no timeout. -/
def shrinkTextRPC (b : RpcBehavior (Option ComposingText)) (offset : Int) :
    Except IMEError Candidates × Nat :=
  match block_on_plain b with
  | (.ok o, t) => (toCandidates o, t)
  | (.error e, t) => (.error e, t)

/-- `IPCService::clear_text`: a plain `block_on` with no timeout. -/
def clearTextRPC (b : RpcBehavior Unit) : Except IMEError Unit × Nat :=
  block_on_plain b

/-- `IPCService::set_context`: a plain `block_on` with no timeout. -/
def setContextRPC (b : RpcBehavior Unit) (context : Str) :
    Except IMEError Unit × Nat :=
  block_on_plain b

/-- `IPCService::learn_candidate`: a plain `block_on` with no
timeout. -/
def learnCandidateRPC (b : RpcBehavior Unit) (candidate_index : Int) :
    Except IMEError Unit × Nat :=
  block_on_plain b

/-- `IPCService::show_window` (UI): a plain `block_on` with no
timeout. -/
def showWindowRPC (b : RpcBehavior Unit) : Except IMEError Unit × Nat :=
  block_on_plain b

/-- `IPCService::hide_window` (UI): a plain `block_on` with no
timeout. -/
def hideWindowRPC (b : RpcBehavior Unit) : Except IMEError Unit × Nat :=
  block_on_plain b

/-- `IPCService::set_candidates` (UI): a plain `block_on` with no
timeout. -/
def setCandidatesRPC (b : RpcBehavior Unit) (candidates : List Str) :
    Except IMEError Unit × Nat :=
  block_on_plain b

/-- `IPCService::set_selection` (UI): a plain `block_on` with no
timeout. -/
def setSelectionRPC (b : RpcBehavior Unit) (index : Int) :
    Except IMEError Unit × Nat :=
  block_on_plain b

/-- `IPCService::set_input_mode` (UI): a plain `block_on` with no
timeout. -/
def setInputModeRPC (b : RpcBehavior Unit) (mode : Str) :
    Except IMEError Unit × Nat :=
  block_on_plain b

/-- `IPCService::set_window_position` (UI): a plain `block_on` with no
timeout. -/
def setWindowPositionRPC (b : RpcBehavior Unit)
    (top left bottom right : Int) : Except IMEError Unit × Nat :=
  block_on_plain b

/-- An environment in which every responder succeeds; the backend
answers `append_text` with one candidate. -/
def envAllOk : Env :=
  { cooldownPassed := false, reconnectOk := false,
    append_text := fun _ _ => .ok ⟨[['a']], [[]], ['a'], [0]⟩,
    remove_text := fun _ => .ok ⟨[], [], [], []⟩,
    shrink_text := fun _ _ => .ok ⟨[], [], [], []⟩,
    set_candidates := fun _ _ => .ok (),
    set_selection := fun _ _ => .ok (),
    start_composition := fun _ => .ok (),
    end_composition := fun _ => .ok (),
    set_text := fun _ _ _ => .ok (),
    shift_start := fun _ => .ok (),
    update_pos := fun _ => .ok () }

/-- As `envAllOk` but the candidate-window UI fails `set_candidates`
and `set_selection`. -/
def envUIFail : Env :=
  { envAllOk with
    set_candidates := fun _ _ => .error (.grpc 7),
    set_selection := fun _ _ => .error (.grpc 8) }

/-- As `envAllOk` but the host rejects `start_composition`. -/
def envHostFail : Env :=
  { envAllOk with start_composition := fun _ => .error (.host 1) }

/-- Process-wide state with no IPC client installed. -/
def gOffline : Globals := { input_mode := .Kana, ipcPresent := false }

/-- Process-wide state with an IPC client installed. -/
def gOnline : Globals := { input_mode := .Kana, ipcPresent := true }

/-- A sample mid-composition record with one candidate. -/
def compSample : CompositionRecord :=
  { preview := ['a'], suffix := [], raw_input := ['k'], raw_hiragana := ['a'],
    corresponding_count := 1, selection_index := 0,
    candidates := ⟨[['a']], [[]], ['a'], [1]⟩, state := .Composing }

/-- C1: if any required step of an action list fails, `handle_action`
returns the error and the composition record is left exactly equal to
its pre-event snapshot; the write-back happens only after every action
succeeded. -/
theorem handle_action_atomic_on_failure (env : Env) (g : Globals)
    (comp : CompositionRecord) (actions : List ClientAction)
    (tr : CompositionState) (e : IMEError)
    (h : (handle_action env g comp actions tr).res = .error e) :
    (handle_action env g comp actions tr).record = comp := by
  unfold handle_action at h ⊢
  cases hrun : runActions env comp.candidates g.input_mode actions
      (initState env g comp tr) with
  | ok m => rw [hrun] at h; simp at h
  | error em =>
    obtain ⟨e', m⟩ := em
    rfl

/-- Witness for C1: with a host that rejects `start_composition`, the
record is unchanged. -/
theorem handle_action_atomic_on_failure_witness :
    (handle_action envHostFail gOnline compSample [.StartComposition] .Composing).record
      = compSample :=
  handle_action_atomic_on_failure envHostFail gOnline compSample
    [.StartComposition] .Composing (.host 1) (by decide)

/-- C5: key codes 0x97 and 0x98 are consumed before the control-key
gate, for every control-modifier state, machine state and decoder:
`process_key` returns the single action SetIMEMode(Latin) for 0x97 and
SetIMEMode(Kana) for 0x98, with transition None. -/
theorem process_key_special_codes :
    ∀ (ctrl : Bool) (decode : Nat → Except Unit UserAction)
      (comp : CompositionRecord) (mode : InputMode),
    process_key true 0x97 ctrl decode comp mode
        = .ok (some ([.SetIMEMode .Latin], .None)) ∧
    process_key true 0x98 ctrl decode comp mode
        = .ok (some ([.SetIMEMode .Kana], .None)) := by
  intro ctrl decode comp mode
  exact ⟨rfl, rfl⟩

/-- C6: the transition table is identical in Composing and Previewing
for every user action other than Input and Number; Input(c) and
Number(d) yield AppendText in Composing and ShrinkText in Previewing,
both with transition Composing. -/
theorem keyTransitions_composing_vs_previewing :
    ∀ (mode : InputMode) (comp : CompositionRecord),
    (∀ a : UserAction, (∀ c, a ≠ .Input c) → (∀ d, a ≠ .Number d) →
      keyTransitions .Composing mode a comp = keyTransitions .Previewing mode a comp) ∧
    (∀ c, keyTransitions .Composing mode (.Input c) comp
            = some (.Composing, [.AppendText [c]]) ∧
          keyTransitions .Previewing mode (.Input c) comp
            = some (.Composing, [.ShrinkText [c]])) ∧
    (∀ d, keyTransitions .Composing mode (.Number d) comp
            = some (.Composing, [.AppendText [d]]) ∧
          keyTransitions .Previewing mode (.Number d) comp
            = some (.Composing, [.ShrinkText [d]])) := by
  intro mode comp
  refine ⟨?_, fun c => ⟨rfl, rfl⟩, fun d => ⟨rfl, rfl⟩⟩
  intro a h1 h2
  cases a
  case Input c => exact absurd rfl (h1 c)
  case Number d => exact absurd rfl (h2 d)
  case Navigation d => cases d <;> rfl
  case Function k => cases k <;> rfl
  all_goals rfl

/-- Witness for C6: Enter behaves identically in Composing and
Previewing. -/
theorem keyTransitions_composing_vs_previewing_witness :
    keyTransitions .Composing .Kana .Enter compSample
      = keyTransitions .Previewing .Kana .Enter compSample :=
  (keyTransitions_composing_vs_previewing .Kana compSample).1 .Enter
    (fun _ h => UserAction.noConfusion h) (fun _ h => UserAction.noConfusion h)

/-- C7: with a non-empty candidate list and an in-range index, the
interpreter's new selection index is max(0, i-1) for Up,
min(len-1, i+1) for Down and k for Number(k); Up at 0 and Down at the
last candidate leave the index unchanged. -/
theorem newSelectionIndex_spec :
    ∀ (texts : List Str) (i k : Int),
    texts ≠ [] → 0 ≤ i → i < (texts.length : Int) →
    (newSelectionIndex .Up i texts = max 0 (i - 1) ∧
     newSelectionIndex .Down i texts = min ((texts.length : Int) - 1) (i + 1) ∧
     newSelectionIndex (.Number k) i texts = k ∧
     (i = 0 → newSelectionIndex .Up i texts = 0) ∧
     (i = (texts.length : Int) - 1 → newSelectionIndex .Down i texts = i)) := by
  intro texts i k _ h0 hlen
  refine ⟨rfl, rfl, rfl, ?_, ?_⟩
  · intro h
    subst h
    rfl
  · intro h
    unfold newSelectionIndex
    rw [← h]
    exact min_eq_left (by omega)

/-- Witness for C7: a two-candidate list at index 1 (the last
candidate). -/
theorem newSelectionIndex_spec_witness :
    newSelectionIndex .Down 1 [['a'], ['b']] = 1 :=
  (newSelectionIndex_spec [['a'], ['b']] 1 0 (by decide) (by decide) (by decide)).2.2.2.2
    (by decide)

/-- C9: executing SetIMEMode issues no IPC call of any kind: the whole
result is the mode installed in the process-wide state, one
language-bar refresh in the trace, and the local composition fields
cleared (candidates and the IPC handle untouched). -/
theorem setIMEMode_issues_no_ipc :
    ∀ (env : Env) (g : Globals) (comp : CompositionRecord)
      (newMode : InputMode) (tr : CompositionState),
    handle_action env g comp [.SetIMEMode newMode] tr =
      { res := .ok (),
        record := { preview := [], suffix := [], raw_input := [], raw_hiragana := [],
                    corresponding_count := 0, selection_index := 0,
                    candidates := comp.candidates, state := tr },
        g := { input_mode := newMode, ipcPresent := g.ipcPresent },
        trace := [.update_lang_bar] } ∧
    (handle_action env g comp [.SetIMEMode newMode] tr).trace.all
      (fun c => !c.isIPC) = true := by
  intro env g comp newMode tr
  exact ⟨rfl, rfl⟩

/-- C10: with an empty candidate list, the SetSelection(Down) arm
computes min(|candidates|-1, i+1) = -1 as the new index, and the
unchecked indexing of the candidate text arrays with that index (cast
to usize) is out of bounds, so the error branch is reached. -/
theorem setSelection_empty_candidates (env : Env) (g : Globals)
    (comp : CompositionRecord) (tr : CompositionState)
    (hip : g.ipcPresent = true)
    (hc : comp.candidates.texts = [])
    (hsi : comp.selection_index = 0)
    (hsel : ∀ n i, env.set_selection n i = .ok ()) :
    newSelectionIndex .Down comp.selection_index comp.candidates.texts = -1 ∧
    (handle_action env g comp [.SetSelection .Down] tr).res
      = .error .indexOutOfBounds := by
  constructor
  · rw [hsi, hc]
    decide
  · simp only [handle_action, runActions, execAction, initState, require_ipc,
      reqCall, uidx, idxGet, newSelectionIndex, emit, hip, hc, hsi, hsel]
    norm_num

/-- Witness for C10: the default (empty) record with the IPC client
present. -/
theorem setSelection_empty_candidates_witness :
    (handle_action envAllOk gOnline default [.SetSelection .Down] .Previewing).res
      = .error .indexOutOfBounds :=
  (setSelection_empty_candidates envAllOk gOnline default .Previewing rfl rfl rfl
    (fun _ _ => rfl)).2

/-- C4 (counterexample): after a successful EndComposition the stored
candidates list is not cleared: it keeps its pre-event value. -/
theorem endComposition_candidates_remain :
    (handle_action envAllOk gOffline compSample [.EndComposition] .None).res
      = .ok () ∧
    (handle_action envAllOk gOffline compSample
        [.EndComposition] .None).record.candidates.texts ≠ [] := by
  decide

/-- C4 (amended): after a successful EndComposition, preview, suffix,
raw_input and raw_hiragana are empty, selection_index = 0 and
corresponding_count = 0, while the stored candidates list is left
unchanged. -/
theorem endComposition_clears_fields (env : Env) (g : Globals)
    (comp : CompositionRecord) (tr : CompositionState)
    (h : (handle_action env g comp [.EndComposition] tr).res = .ok ()) :
    (handle_action env g comp [.EndComposition] tr).record =
      { preview := [], suffix := [], raw_input := [], raw_hiragana := [],
        corresponding_count := 0, selection_index := 0,
        candidates := comp.candidates, state := tr } := by
  cases henv : env.end_composition 0 with
  | ok u =>
    cases hip : g.ipcPresent <;>
      simp only [handle_action, runActions, execAction, initState, writeback,
        reqCall, emit, henv, hip, Bool.false_eq_true, if_false, if_true]
  | error e =>
    exfalso
    simp only [handle_action, runActions, execAction, initState, reqCall,
      emit, henv] at h
    cases h

/-- Witness for C4 (amended): EndComposition on a record with one
candidate. -/
theorem endComposition_clears_fields_witness :
    (handle_action envAllOk gOffline compSample [.EndComposition] .None).record =
      { preview := [], suffix := [], raw_input := [], raw_hiragana := [],
        corresponding_count := 0, selection_index := 0,
        candidates := compSample.candidates, state := .None } :=
  endComposition_clears_fields envAllOk gOffline compSample .None (by decide)

/-- C8 (counterexample): an offline AppendText leaves a previously
non-empty candidates list non-empty rather than clearing it. -/
theorem appendText_offline_candidates_remain :
    (handle_action envAllOk gOffline compSample [.AppendText ['i']] .Composing).res
      = .ok () ∧
    (handle_action envAllOk gOffline compSample
        [.AppendText ['i']] .Composing).record.candidates.texts ≠ [] := by
  decide

/-- C8 (amended): a successful AppendText(t) with the IPC client absent
and not reconnectable appends the mode-shaped text to raw_hiragana,
sets preview = raw_hiragana, suffix = "", corresponding_count = the
character count of raw_hiragana, and leaves the candidates list
unchanged (so it is empty whenever it was empty before the event). -/
theorem appendText_offline (env : Env) (g : Globals)
    (comp : CompositionRecord) (t : Str) (tr : CompositionState)
    (hip : g.ipcPresent = false)
    (hrc : env.cooldownPassed = false ∨ env.reconnectOk = false)
    (h : (handle_action env g comp [.AppendText t] tr).res = .ok ()) :
    (handle_action env g comp [.AppendText t] tr).record =
      { preview := comp.raw_hiragana ++ shaped g.input_mode t,
        suffix := [],
        raw_input := comp.raw_input ++ t,
        raw_hiragana := comp.raw_hiragana ++ shaped g.input_mode t,
        corresponding_count :=
          ((comp.raw_hiragana ++ shaped g.input_mode t).length : Int),
        selection_index := comp.selection_index,
        candidates := comp.candidates, state := tr } := by
  cases hst : env.set_text 0 (comp.raw_hiragana ++ shaped g.input_mode t) [] with
  | ok u =>
    rcases hrc with hcd | hcd
    · simp only [handle_action, runActions, execAction, initState, writeback,
        require_ipc, reqCall, emit, hip, hcd, hst, Bool.false_eq_true, if_false]
    · cases hcd2 : env.cooldownPassed <;>
        simp only [handle_action, runActions, execAction, initState, writeback,
          require_ipc, reqCall, emit, hip, hcd, hcd2, hst,
          Bool.false_eq_true, if_false, if_true]
  | error e =>
    exfalso
    rcases hrc with hcd | hcd
    · simp only [handle_action, runActions, execAction, initState,
        require_ipc, reqCall, emit, hip, hcd, hst,
        Bool.false_eq_true, if_false] at h
      cases h
    · cases hcd2 : env.cooldownPassed <;>
        simp only [handle_action, runActions, execAction, initState,
          require_ipc, reqCall, emit, hip, hcd, hcd2, hst,
          Bool.false_eq_true, if_false, if_true] at h <;> cases h

/-- Witness for C8 (amended): an offline append of 'i' in Kana mode. -/
theorem appendText_offline_witness :
    (handle_action envAllOk gOffline compSample [.AppendText ['i']] .Composing).record =
      { preview := compSample.raw_hiragana ++ shaped gOffline.input_mode ['i'],
        suffix := [],
        raw_input := compSample.raw_input ++ ['i'],
        raw_hiragana := compSample.raw_hiragana ++ shaped gOffline.input_mode ['i'],
        corresponding_count :=
          ((compSample.raw_hiragana ++ shaped gOffline.input_mode ['i']).length : Int),
        selection_index := compSample.selection_index,
        candidates := compSample.candidates, state := .Composing } :=
  appendText_offline envAllOk gOffline compSample ['i'] .Composing (by decide)
    (.inl (by decide)) (by decide)

/-- C3 (counterexample): inside ShrinkText the UI call `set_candidates`
is issued with `?`, so its failure aborts the action list and
propagates out of `handle_action` (the record stays at its snapshot). -/
theorem shrinkText_set_candidates_failure_aborts :
    (handle_action envUIFail gOnline compSample [.ShrinkText []] .Composing).res
      = .error (.grpc 7) ∧
    (handle_action envUIFail gOnline compSample [.ShrinkText []] .Composing).record
      = compSample := by
  decide

/-- C3 (amended): failures of the UI calls issued with discarded
results are swallowed: StartComposition's `show_window`,
EndComposition's `hide_window`/`set_candidates`/`clear_text`, and the
`set_candidates`/`set_selection` of AppendText and RemoveText never
abort the action list — `handle_action` succeeds for every behaviour
of those responders, provided the host calls and required backend
calls succeed. -/
theorem optional_ui_failures_swallowed (env : Env) (g : Globals)
    (comp : CompositionRecord) (tr : CompositionState) (t : Str)
    (cands cands2 : Candidates) (x y : Str) (k : Int)
    (hsc : ∀ n, env.start_composition n = .ok ())
    (hec : ∀ n, env.end_composition n = .ok ())
    (hstx : ∀ n p s, env.set_text n p s = .ok ())
    (hup : ∀ n, env.update_pos n = .ok ()) :
    (handle_action env g comp [.StartComposition] tr).res = .ok () ∧
    (handle_action env g comp [.EndComposition] tr).res = .ok () ∧
    (g.ipcPresent = true →
     (∀ n u, env.append_text n u = .ok cands) →
     idxGet cands.texts comp.selection_index = some x →
     idxGet cands.sub_texts comp.selection_index = some y →
     idxGetI cands.corresponding_count comp.selection_index = some k →
     (handle_action env g comp [.AppendText t] tr).res = .ok ()) ∧
    (g.ipcPresent = true →
     (∀ n, env.remove_text n = .ok cands2) →
     (handle_action env g comp [.RemoveText] tr).res = .ok ()) := by
  refine ⟨?_, ?_, ?_, ?_⟩
  · cases hip : g.ipcPresent <;>
      simp only [handle_action, runActions, execAction, initState, reqCall,
        emit, hsc, hup, hip, Bool.false_eq_true, if_false, if_true]
  · cases hip : g.ipcPresent <;>
      simp only [handle_action, runActions, execAction, initState, reqCall,
        emit, hec, hip, Bool.false_eq_true, if_false, if_true]
  · intro hip hap hx hy hk
    simp only [handle_action, runActions, execAction, initState, require_ipc,
      reqCall, candCall, uidx, uidxI, emit, hip, hap, hstx, hx, hy, hk, if_true]
  · intro hip hrm
    simp only [handle_action, runActions, execAction, initState, require_ipc,
      reqCall, candCall, emit, hip, hrm, hstx, if_true]

/-- Witness for C3 (amended): with a UI that fails `set_candidates` and
`set_selection`, an online AppendText and an online RemoveText both
still succeed. -/
theorem optional_ui_failures_swallowed_witness :
    (handle_action envUIFail gOnline compSample [.AppendText ['i']] .Composing).res
      = .ok () ∧
    (handle_action envUIFail gOnline compSample [.RemoveText] .Composing).res
      = .ok () :=
  ⟨(optional_ui_failures_swallowed envUIFail gOnline compSample .Composing ['i']
      ⟨[['a']], [[]], ['a'], [0]⟩ ⟨[], [], [], []⟩ ['a'] [] 0
      (fun _ => rfl) (fun _ => rfl) (fun _ _ _ => rfl) (fun _ => rfl)).2.2.1
    rfl (fun _ _ => rfl) (by decide) (by decide) (by decide),
   (optional_ui_failures_swallowed envUIFail gOnline compSample .Composing ['i']
      ⟨[['a']], [[]], ['a'], [0]⟩ ⟨[], [], [], []⟩ ['a'] [] 0
      (fun _ => rfl) (fun _ => rfl) (fun _ _ _ => rfl) (fun _ => rfl)).2.2.2
    rfl (fun _ => rfl)⟩

/-- C2 (counterexample): `remove_text` is not bounded by the 5 s
timeout: with a server latency of 6000 ms the caller blocks for the
full 6000 ms and the call succeeds instead of failing with Timeout. -/
theorem removeText_not_bounded :
    IPC_TIMEOUT < 6000 ∧
    removeTextRPC ⟨6000, .ok (some ⟨[], ['a']⟩)⟩ = (.ok ⟨[], [], ['a'], []⟩, 6000) := by
  decide

/-- C2 (amended): only `append_text` is bounded by the 5 s wall-clock
timeout — it blocks at most IPC_TIMEOUT and fails with Timeout when
the latency exceeds it — while every other RPC of the IPC client
(`remove_text`, `shrink_text`, `clear_text`, `set_context`,
`learn_candidate`, and the UI calls `show_window`, `hide_window`,
`set_window_position`, `set_candidates`, `set_selection`,
`set_input_mode`) blocks for the full server latency, however large. -/
theorem append_text_timeout_bound (b : RpcBehavior (Option ComposingText))
    (bu : RpcBehavior Unit) (off ci top left bottom right i : Int)
    (ctx ms : Str) (cl : List Str) :
    (appendTextRPC b).2 ≤ IPC_TIMEOUT ∧
    (b.latency > IPC_TIMEOUT → appendTextRPC b = (.error .timeout, IPC_TIMEOUT)) ∧
    (removeTextRPC b).2 = b.latency ∧
    (shrinkTextRPC b off).2 = b.latency ∧
    (clearTextRPC bu).2 = bu.latency ∧
    (setContextRPC bu ctx).2 = bu.latency ∧
    (learnCandidateRPC bu ci).2 = bu.latency ∧
    (showWindowRPC bu).2 = bu.latency ∧
    (hideWindowRPC bu).2 = bu.latency ∧
    (setWindowPositionRPC bu top left bottom right).2 = bu.latency ∧
    (setCandidatesRPC bu cl).2 = bu.latency ∧
    (setSelectionRPC bu i).2 = bu.latency ∧
    (setInputModeRPC bu ms).2 = bu.latency := by
  refine ⟨?_, ?_, ?_, ?_, rfl, rfl, rfl, rfl, rfl, rfl, rfl, rfl, rfl⟩
  · by_cases hl : b.latency > IPC_TIMEOUT
    · simp [appendTextRPC, block_on_with_timeout, hl]
    · rcases hr : b.response <;>
        simp [appendTextRPC, block_on_with_timeout, hl, hr] <;> omega
  · intro hl
    simp [appendTextRPC, block_on_with_timeout, hl]
  · rcases hr : b.response <;> simp [removeTextRPC, block_on_plain, hr]
  · rcases hr : b.response <;> simp [shrinkTextRPC, block_on_plain, hr]

/-- Witness for C2 (amended): a 6000 ms latency makes `append_text`
fail with Timeout after exactly IPC_TIMEOUT. -/
theorem append_text_timeout_bound_witness :
    appendTextRPC ⟨6000, .ok none⟩ = (.error .timeout, IPC_TIMEOUT) :=
  (append_text_timeout_bound ⟨6000, .ok none⟩ ⟨0, .ok ()⟩ 0 0 0 0 0 0 0
    [] [] []).2.1 (by decide)
